import Mathlib

/-!
Verification of the points-allocation survey core of `src/main.py`
(a Streamlit skills-matrix form).

The embedding follows the source: point values entered through
`st.number_input` are integers (integer `min_value`/`max_value`), so
skill values are modelled as `Int`; the submit-time total check in the
source compares against an epsilon of `0.1`, which we model over `ℚ`.
The session state (`st.session_state`) is modelled as an explicit
`Session` record, the CSV response file as a `DiskState`, and each
user interaction as a pure step function on these.
-/

namespace SkillsMatrix

/-- `MAX_TOTAL_POINTS` constant from `show_skills_form` (line 320). -/
def MAX_TOTAL_POINTS : Int := 90

/-- `MAX_POINTS_PER_SKILL` constant from `show_skills_form` (line 321). -/
def MAX_POINTS_PER_SKILL : Int := 10

/-- One stored submission row: metadata columns plus one integer column per
skill, as assembled into `response_data` in `show_skills_form`
(lines 450-456). -/
structure Response where
  response_id : String
  timestamp : String
  submitter_name : String
  submitter_email : String
  skills : List Int
  deriving DecidableEq, Repr

/-- Per-session mutable state held in `st.session_state`: the per-skill
values (`st.session_state.skills`, one entry per catalogued skill, in
catalog order), the running total (`st.session_state.total_points`), the
submitted flag (`st.session_state.form_submitted`) and the 90-points modal
flag (`st.session_state.show_90_points_modal`). -/
structure Session where
  values : List Int
  total_points : Int
  form_submitted : Bool
  show_90_points_modal : Bool
  deriving DecidableEq, Repr

/-- Fresh session state: `main` and `show_skills_form` initialise
`total_points` to 0, every skill to 0, and both flags to false
(lines 324-325, 466-467, 558-730). -/
def initSession (n : Nat) : Session :=
  { values := List.replicate n 0
    total_points := 0
    form_submitted := false
    show_90_points_modal := false }

/-- The total recomputation of `update_total_points` (lines 274-289): a fold
over the current per-field input values.  On integer inputs the source's
float parsing and `round(·, 1)` are the identity, so the fold is the sum. -/
def update_total_points (values : List Int) : Int :=
  values.sum

/-- Dynamic per-field ceiling from `show_skills_form` (lines 415-418):
`points_available = min(MAX_POINTS_PER_SKILL, MAX_TOTAL_POINTS -
(total_points - current_skill_points))`. -/
def points_available (total_points current_skill_points : Int) : Int :=
  min MAX_POINTS_PER_SKILL (MAX_TOTAL_POINTS - (total_points - current_skill_points))

/-- Whether `st.number_input` (lines 422-430) accepts a new value for a
field: it is constrained to `min_value = 0` and
`max_value = points_available`. -/
def input_accepted (total_points current_skill_points v : Int) : Bool :=
  decide (0 ≤ v) && decide (v ≤ points_available total_points current_skill_points)

/-- One field edit.  When the form is already submitted the form body is not
rendered (lines 328-340), so the edit cannot occur; otherwise the widget
accepts the value only within its bounds, stores it in
`st.session_state.skills` (line 431), and `update_total_points` (the
`on_change` callback, lines 274-295) recomputes the running total and the
modal flag. -/
def editSkill (s : Session) (i : Nat) (v : Int) : Session :=
  if s.form_submitted then s
  else if input_accepted s.total_points (s.values.getD i 0) v then
    let vs := s.values.set i v
    let new_total := update_total_points vs
    { s with
      values := vs
      total_points := new_total
      show_90_points_modal :=
        if 90 ≤ new_total ∧ s.total_points < 90 then true
        else s.show_90_points_modal }
  else s

/-- A sequence of field edits applied in order. -/
def runEdits (s : Session) : List (Nat × Int) → Session
  | [] => s
  | (i, v) :: rest => runEdits (editSkill s i v) rest

/-- State of the CSV response file `skills_matrix_responses.csv`: absent,
present but unreadable (a read raising inside `load_responses`), or
readable with its rows. -/
inductive DiskState where
  | missing
  | corrupt (rows : List Response)
  | ok (rows : List Response)
  deriving DecidableEq, Repr

/-- `load_responses` (lines 13-28): returns the stored rows; a missing file
yields an empty table with the required columns, and a read error is caught
and likewise yields an empty table. -/
def load_responses : DiskState → List Response
  | .missing => []
  | .corrupt _ => []
  | .ok rows => rows

/-- `save_response` (lines 30-60), successful-write path: loads the existing
rows via `load_responses`, appends the new row, and writes the result back. -/
def save_response (d : DiskState) (r : Response) : DiskState :=
  .ok (load_responses d ++ [r])

/-- The hardcoded exemption address in `is_email_unique` (line 308). -/
def test_email : String := "aavadhan@umich.edu"

/-- `is_email_unique` (lines 306-315): the test email is always accepted;
otherwise the stored emails are loaded and, when the table is non-empty, the
email must not already appear. -/
def is_email_unique (d : DiskState) (email : String) : Bool :=
  if email = test_email then true
  else
    let responses := load_responses d
    if responses.isEmpty then true
    else !(responses.map Response.submitter_email).contains email

/-- `get_expertise_level` (lines 296-304): the per-field UI indicator. -/
def get_expertise_level (value : Int) : String :=
  if value ≥ 8 then "🔵 Primary"
  else if value ≥ 3 then "🟢 Secondary"
  else if value ≥ 1 then "🟡 Limited"
  else ""

/-- `get_expertise_counts` (lines 144-152): the dashboard's per-row tallies
of (Primary, Secondary, Limited) skills, via `x >= 8`, `3 <= x < 8`,
`1 <= x < 3`. -/
def get_expertise_counts (row : List Int) : Nat × Nat × Nat :=
  ((row.filter (fun x => decide (x ≥ 8))).length,
   (row.filter (fun x => decide (3 ≤ x) && decide (x < 8))).length,
   (row.filter (fun x => decide (1 ≤ x) && decide (x < 3))).length)

/-- Outcome of a submit click, from the branches of `show_skills_form`
(lines 441-463). -/
inductive SubmitResult where
  /-- The form body is not rendered after submission, so no submit occurs. -/
  | ignored
  /-- Total-points validation failed (lines 446-448). -/
  | totalMismatch
  /-- `save_response` returned False (lines 462-463). -/
  | persistError
  /-- Record appended and `form_submitted` set (lines 458-461). -/
  | accepted
  deriving DecidableEq, Repr

/-- The submit click (lines 441-463).  If the form was already submitted the
form is not shown at all (lines 328-340).  Otherwise: the total must be
within 0.1 of `MAX_TOTAL_POINTS` (line 446), else an error is shown and the
handler returns; the response record merges identity fields with the skills
snapshot (lines 450-456); on a successful `save_response` the session enters
the submitted state, and on a failed save an error is shown and nothing
changes.  `saveOk` models whether the CSV write raises. -/
def submitAction (s : Session) (d : DiskState)
    (rid ts : String) (name email : String) (saveOk : Bool) :
    Session × DiskState × SubmitResult :=
  if s.form_submitted then (s, d, .ignored)
  else if |(s.total_points : ℚ) - (MAX_TOTAL_POINTS : ℚ)| > 1/10 then
    (s, d, .totalMismatch)
  else if saveOk then
    ({ s with form_submitted := true },
     save_response d
       { response_id := rid
         timestamp := ts
         submitter_name := name
         submitter_email := email
         skills := s.values },
     .accepted)
  else
    (s, d, .persistError)

/-- The "Close Survey" button (lines 332-339), shown only in the submitted
state: it deletes every `st.session_state` key, so the next run
reinitialises a fresh all-zero session of `n` skills. -/
def closeSurvey (s : Session) (n : Nat) : Session :=
  if s.form_submitted then initSession n else s

/-- A session that has allocated all 90 points and not yet submitted. -/
def sampleFull : Session :=
  { values := [10, 10, 10, 10, 10, 10, 10, 10, 10]
    total_points := 90
    form_submitted := false
    show_90_points_modal := true }

/-- A session in the post-submission (thank-you) state. -/
def sampleDone : Session :=
  { values := [10, 10, 10, 10, 10, 10, 10, 10, 10]
    total_points := 90
    form_submitted := true
    show_90_points_modal := true }

/-- A stored response row, with a zero-valued skill. -/
def sampleRowA : Response :=
  { response_id := "a1b2c3d4"
    timestamp := "2025-01-01 09:00:00"
    submitter_name := "Alice Example"
    submitter_email := "alice@example.com"
    skills := [10, 0, 7] }

/-- A second response row, also with zero-valued skills. -/
def sampleRowB : Response :=
  { response_id := "e5f6a7b8"
    timestamp := "2025-01-02 10:30:00"
    submitter_name := "Bob Example"
    submitter_email := "bob@example.com"
    skills := [0, 10, 0] }

/-- Invariant: a single edit preserves `total_points = values.sum`. -/
lemma editSkill_total_eq_sum (s : Session) (i : Nat) (v : Int)
    (h : s.total_points = s.values.sum) :
    (editSkill s i v).total_points = (editSkill s i v).values.sum := by
  unfold editSkill
  split
  · exact h
  · split
    · simp [update_total_points]
    · exact h

/-- Invariant propagated over any edit sequence. -/
lemma runEdits_total_eq_sum (muts : List (Nat × Int)) (s : Session)
    (h : s.total_points = s.values.sum) :
    (runEdits s muts).total_points = (runEdits s muts).values.sum := by
  induction muts generalizing s with
  | nil => exact h
  | cons m rest ih =>
      obtain ⟨i, v⟩ := m
      exact ih (editSkill s i v) (editSkill_total_eq_sum s i v h)

/-- For an integer running total, the source's 0.1-tolerance check trips
exactly when the total differs from 90. -/
lemma total_gap_gt_iff (t : Int) :
    |(t : ℚ) - (MAX_TOTAL_POINTS : ℚ)| > 1/10 ↔ t ≠ MAX_TOTAL_POINTS := by
  rw [show ((t : ℚ) - (MAX_TOTAL_POINTS : ℚ)) = ((t - MAX_TOTAL_POINTS : Int) : ℚ) by
    push_cast; ring]
  rw [← Int.cast_abs]
  constructor
  · intro hgt heq
    rw [heq] at hgt
    norm_num at hgt
  · intro hne
    have h0 : t - MAX_TOTAL_POINTS ≠ 0 := fun h => hne (by omega)
    have h2 : (1 : ℚ) ≤ ((|t - MAX_TOTAL_POINTS| : Int) : ℚ) := by
      exact_mod_cast Int.one_le_abs h0
    calc (1 : ℚ)/10 < 1 := by norm_num
    _ ≤ ((|t - MAX_TOTAL_POINTS| : Int) : ℚ) := h2

/-- `submitAction` on a not-yet-submitted session, as a conditional on the
total check and the save result. -/
lemma submitAction_not_submitted (s : Session) (d : DiskState)
    (rid ts name email : String) (saveOk : Bool)
    (h : s.form_submitted = false) :
    submitAction s d rid ts name email saveOk =
      if |(s.total_points : ℚ) - (MAX_TOTAL_POINTS : ℚ)| > 1/10 then
        (s, d, SubmitResult.totalMismatch)
      else if saveOk then
        ({ s with form_submitted := true },
         save_response d
           { response_id := rid
             timestamp := ts
             submitter_name := name
             submitter_email := email
             skills := s.values },
         SubmitResult.accepted)
      else
        (s, d, SubmitResult.persistError) := by
  unfold submitAction
  rw [h]
  rfl

/-- A replicated-zero list reads 0 at every index. -/
lemma getD_replicate_zero (n i : Nat) : (List.replicate n (0 : Int)).getD i 0 = 0 := by
  rw [List.getD_eq_getElem?_getD, List.getElem?_replicate]
  split <;> rfl

/-- C1: for 0 ≤ v ≤ PER_SKILL_MAX, the field widget accepts v iff
total − current + v ≤ TOTAL_MAX; the ceiling is
min(PER_SKILL_MAX, TOTAL_MAX − (total − current)), recomputed from the
current allocation. -/
theorem input_accepted_iff (total current v : Int)
    (h0 : 0 ≤ v) (h1 : v ≤ MAX_POINTS_PER_SKILL) :
    (input_accepted total current v = true ↔ total - current + v ≤ MAX_TOTAL_POINTS)
      ∧ points_available total current
          = min MAX_POINTS_PER_SKILL (MAX_TOTAL_POINTS - (total - current)) := by
  refine ⟨?_, rfl⟩
  unfold input_accepted points_available at *
  unfold MAX_POINTS_PER_SKILL MAX_TOTAL_POINTS at *
  simp only [Bool.and_eq_true, decide_eq_true_eq]
  omega

/-- Witness for C1 at a concrete input. -/
theorem input_accepted_iff_witness :
    (input_accepted 10 0 5 = true ↔ 10 - 0 + 5 ≤ MAX_TOTAL_POINTS)
      ∧ points_available 10 0
          = min MAX_POINTS_PER_SKILL (MAX_TOTAL_POINTS - (10 - 0)) :=
  input_accepted_iff 10 0 5 (by decide) (by decide)

/-- C2: after any sequence of field edits from a fresh session, the running
total equals the pure sum of the per-skill values — no drift. -/
theorem total_points_eq_sum_after_edits (n : Nat) (muts : List (Nat × Int)) :
    (runEdits (initSession n) muts).total_points
      = (runEdits (initSession n) muts).values.sum := by
  apply runEdits_total_eq_sum
  simp [initSession]

/-- C3: with the form not yet submitted, a submit click proceeds past the
total check iff the running total is within 0.1 of `MAX_TOTAL_POINTS`;
otherwise it fails with the total-mismatch error and neither the session nor
the stored file changes. -/
theorem submit_total_gate (s : Session) (d : DiskState)
    (rid ts name email : String) (saveOk : Bool)
    (h : s.form_submitted = false) :
    ((submitAction s d rid ts name email saveOk).2.2 ≠ SubmitResult.totalMismatch
        ↔ |(s.total_points : ℚ) - (MAX_TOTAL_POINTS : ℚ)| ≤ 1/10)
      ∧ (|(s.total_points : ℚ) - (MAX_TOTAL_POINTS : ℚ)| > 1/10 →
          submitAction s d rid ts name email saveOk = (s, d, SubmitResult.totalMismatch)) := by
  rw [submitAction_not_submitted s d rid ts name email saveOk h]
  by_cases hc : |(s.total_points : ℚ) - (MAX_TOTAL_POINTS : ℚ)| > 1/10
  · rw [if_pos hc]
    exact ⟨iff_of_false (by simp) (not_le.mpr hc), fun _ => rfl⟩
  · rw [if_neg hc]
    constructor
    · apply iff_of_true
      · cases saveOk <;> simp
      · exact not_lt.mp hc
    · intro hcon
      exact absurd hcon hc

/-- Witness for C3 at a concrete session. -/
theorem submit_total_gate_witness :
    (initSession 3).form_submitted = false
      ∧ (((submitAction (initSession 3) (.ok []) "a1b2c3d4" "ts" "N" "e@x.com" true).2.2
            ≠ SubmitResult.totalMismatch
          ↔ |((initSession 3).total_points : ℚ) - (MAX_TOTAL_POINTS : ℚ)| ≤ 1/10)
        ∧ (|((initSession 3).total_points : ℚ) - (MAX_TOTAL_POINTS : ℚ)| > 1/10 →
            submitAction (initSession 3) (.ok []) "a1b2c3d4" "ts" "N" "e@x.com" true
              = (initSession 3, .ok [], SubmitResult.totalMismatch))) :=
  ⟨rfl, submit_total_gate (initSession 3) (.ok []) "a1b2c3d4" "ts" "N" "e@x.com" true rfl⟩

/-- C4: on a readable store, the uniqueness check rejects an email iff it
already appears as a Submitter Email and is not the exempt test address; the
exempt address is always accepted. -/
theorem email_unique_iff (rows : List Response) (email : String) :
    (is_email_unique (.ok rows) email = false
        ↔ (email ∈ rows.map Response.submitter_email ∧ email ≠ test_email))
      ∧ is_email_unique (.ok rows) test_email = true := by
  constructor
  · by_cases he : email = test_email
    · subst he
      simp [is_email_unique]
    · cases rows with
      | nil => simp [is_email_unique, load_responses, he]
      | cons a l =>
          simp [is_email_unique, load_responses, he]
          tauto
  · simp [is_email_unique]

/-- C5: the per-field UI classifier `get_expertise_level` follows the fixed
thresholds (≥8 Primary, 3-7 Secondary, 1-2 Limited, below 1 none), and
agrees with the dashboard's `get_expertise_counts` bucketing on every
value. -/
theorem expertise_levels_agree (v : Int) :
    ((get_expertise_level v = "🔵 Primary" ↔ 8 ≤ v)
      ∧ (get_expertise_level v = "🟢 Secondary" ↔ (3 ≤ v ∧ v < 8))
      ∧ (get_expertise_level v = "🟡 Limited" ↔ (1 ≤ v ∧ v < 3))
      ∧ (get_expertise_level v = "" ↔ v < 1))
    ∧ get_expertise_counts [v]
        = ((if 8 ≤ v then 1 else 0),
           (if 3 ≤ v ∧ v < 8 then 1 else 0),
           (if 1 ≤ v ∧ v < 3 then 1 else 0)) := by
  rcases lt_or_ge v 1 with h1 | h1
  · have hn8 : ¬ (8 : Int) ≤ v := by omega
    have hn3 : ¬ (3 : Int) ≤ v := by omega
    have hn1 : ¬ (1 : Int) ≤ v := by omega
    have e : get_expertise_level v = "" := by
      unfold get_expertise_level
      rw [if_neg hn8, if_neg hn3, if_neg hn1]
    rw [e]
    refine ⟨⟨iff_of_false (by decide) hn8,
            iff_of_false (by decide) (by omega),
            iff_of_false (by decide) (by omega),
            iff_of_true rfl h1⟩, ?_⟩
    simp [get_expertise_counts, List.filter, hn8, hn3, hn1]
  · rcases lt_or_ge v 3 with h3 | h3
    · have hn8 : ¬ (8 : Int) ≤ v := by omega
      have hn3 : ¬ (3 : Int) ≤ v := by omega
      have e : get_expertise_level v = "🟡 Limited" := by
        unfold get_expertise_level
        rw [if_neg hn8, if_neg hn3, if_pos h1]
      rw [e]
      refine ⟨⟨iff_of_false (by decide) hn8,
              iff_of_false (by decide) (by omega),
              iff_of_true rfl ⟨h1, h3⟩,
              iff_of_false (by decide) (by omega)⟩, ?_⟩
      simp [get_expertise_counts, List.filter, hn8, hn3, h1, h3]
    · rcases lt_or_ge v 8 with h8 | h8
      · have hn8 : ¬ (8 : Int) ≤ v := by omega
        have hn3 : ¬ v < 3 := by omega
        have h1' : (1 : Int) ≤ v := by omega
        have e : get_expertise_level v = "🟢 Secondary" := by
          unfold get_expertise_level
          rw [if_neg hn8, if_pos h3]
        rw [e]
        refine ⟨⟨iff_of_false (by decide) hn8,
                iff_of_true rfl ⟨h3, h8⟩,
                iff_of_false (by decide) (by omega),
                iff_of_false (by decide) (by omega)⟩, ?_⟩
        simp [get_expertise_counts, List.filter, hn8, h3, h8, h1', hn3]
      · have hn8 : ¬ v < 8 := by omega
        have hn3 : ¬ v < 3 := by omega
        have h3' : (3 : Int) ≤ v := by omega
        have h1' : (1 : Int) ≤ v := by omega
        have e : get_expertise_level v = "🔵 Primary" := by
          unfold get_expertise_level
          rw [if_pos h8]
        rw [e]
        refine ⟨⟨iff_of_true rfl h8,
                iff_of_false (by decide) (by omega),
                iff_of_false (by decide) (by omega),
                iff_of_false (by decide) (by omega)⟩, ?_⟩
        simp [get_expertise_counts, List.filter, h8, hn8, hn3, h3', h1']

/-- C6: a submission accepted by `submitAction` leads, through the Close
Survey reset path, to a session with every skill value 0 and running total
0: the reset is the wholesale reinitialisation `initSession n`, with no
partial-reset path. -/
theorem reset_after_accept (s : Session) (d : DiskState)
    (rid ts name email : String) (n : Nat)
    (h : (submitAction s d rid ts name email true).2.2 = SubmitResult.accepted) :
    closeSurvey (submitAction s d rid ts name email true).1 n = initSession n
      ∧ (∀ i : Nat,
          (closeSurvey (submitAction s d rid ts name email true).1 n).values.getD i 0 = 0)
      ∧ (closeSurvey (submitAction s d rid ts name email true).1 n).total_points = 0 := by
  by_cases h1 : s.form_submitted = true
  · rw [show submitAction s d rid ts name email true = (s, d, SubmitResult.ignored) from by
      unfold submitAction; rw [h1]; rfl] at h
    simp at h
  · have h1' : s.form_submitted = false := by simpa using h1
    rw [submitAction_not_submitted s d rid ts name email true h1'] at h ⊢
    by_cases h2 : |(s.total_points : ℚ) - (MAX_TOTAL_POINTS : ℚ)| > 1/10
    · rw [if_pos h2] at h
      simp at h
    · rw [if_neg h2] at h ⊢
      refine ⟨?_, ?_, ?_⟩ <;>
        simp [closeSurvey, initSession, getD_replicate_zero]

/-- Witness for C6 at a concrete accepted submission. -/
theorem reset_after_accept_witness :
    (submitAction sampleFull (.ok []) "a1b2c3d4" "ts" "N" "e@x.com" true).2.2
        = SubmitResult.accepted
      ∧ (closeSurvey (submitAction sampleFull (.ok []) "a1b2c3d4" "ts" "N" "e@x.com" true).1 9
          = initSession 9
        ∧ (∀ i : Nat,
            (closeSurvey
              (submitAction sampleFull (.ok []) "a1b2c3d4" "ts" "N" "e@x.com" true).1
              9).values.getD i 0 = 0)
        ∧ (closeSurvey (submitAction sampleFull (.ok []) "a1b2c3d4" "ts" "N" "e@x.com" true).1
            9).total_points = 0) := by
  have hAcc : (submitAction sampleFull (.ok []) "a1b2c3d4" "ts" "N" "e@x.com" true).2.2
      = SubmitResult.accepted := by
    rw [submitAction_not_submitted sampleFull (.ok []) "a1b2c3d4" "ts" "N" "e@x.com" true rfl,
      if_neg (fun hgt => absurd ((total_gap_gt_iff sampleFull.total_points).mp hgt) (by decide))]
    rfl
  exact ⟨hAcc, reset_after_accept sampleFull (.ok []) "a1b2c3d4" "ts" "N" "e@x.com" 9 hAcc⟩

/-- C7: the session leaves the editing state only when the persistence
append has succeeded, and a failed append reports the persistence error
while leaving the session (all values and the total) and the stored file
unchanged, so the user can retry. -/
theorem persist_failure_preserves (s : Session) (d : DiskState)
    (rid ts name email : String)
    (h1 : s.form_submitted = false)
    (h2 : ¬ (|(s.total_points : ℚ) - (MAX_TOTAL_POINTS : ℚ)| > 1/10)) :
    (∀ saveOk : Bool,
        (submitAction s d rid ts name email saveOk).1.form_submitted = true → saveOk = true)
      ∧ submitAction s d rid ts name email false = (s, d, SubmitResult.persistError) := by
  have hfail : submitAction s d rid ts name email false
      = (s, d, SubmitResult.persistError) := by
    rw [submitAction_not_submitted s d rid ts name email false h1, if_neg h2]
    rfl
  refine ⟨?_, hfail⟩
  intro saveOk hs
  cases saveOk
  · rw [hfail] at hs
    simp [h1] at hs
  · rfl

/-- Witness for C7 at a concrete session with a failing save. -/
theorem persist_failure_preserves_witness :
    sampleFull.form_submitted = false
      ∧ ((∀ saveOk : Bool,
            (submitAction sampleFull (.ok [sampleRowA]) "a1b2c3d4" "ts" "N" "e@x.com"
              saveOk).1.form_submitted = true → saveOk = true)
        ∧ submitAction sampleFull (.ok [sampleRowA]) "a1b2c3d4" "ts" "N" "e@x.com" false
            = (sampleFull, .ok [sampleRowA], SubmitResult.persistError)) :=
  ⟨rfl, persist_failure_preserves sampleFull (.ok [sampleRowA]) "a1b2c3d4" "ts" "N" "e@x.com"
    rfl (fun hgt => absurd ((total_gap_gt_iff sampleFull.total_points).mp hgt) (by decide))⟩

/-- C8: the submitted state is terminal for the session: a field edit leaves
the session unchanged and a further submit is ignored — it changes neither
the session nor the store and appends no record. -/
theorem submitted_is_terminal (s : Session) (i : Nat) (v : Int) (d : DiskState)
    (rid ts name email : String) (saveOk : Bool)
    (h : s.form_submitted = true) :
    editSkill s i v = s
      ∧ submitAction s d rid ts name email saveOk = (s, d, SubmitResult.ignored) := by
  constructor
  · simp [editSkill, h]
  · simp [submitAction, h]

/-- Witness for C8 at a concrete submitted session. -/
theorem submitted_is_terminal_witness :
    sampleDone.form_submitted = true
      ∧ (editSkill sampleDone 0 3 = sampleDone
        ∧ submitAction sampleDone (.ok [sampleRowA]) "a1b2c3d4" "ts" "N" "e@x.com" true
            = (sampleDone, .ok [sampleRowA], SubmitResult.ignored)) :=
  ⟨rfl, submitted_is_terminal sampleDone 0 3 (.ok [sampleRowA]) "a1b2c3d4" "ts" "N" "e@x.com"
    true rfl⟩

/-- C9: appending a record to a readable store and loading it back yields
the old rows unchanged followed by exactly the appended record, every field
(zero-valued skills included) intact. -/
theorem save_load_round_trip (rows : List Response) (r : Response) :
    (load_responses (save_response (.ok rows) r)).getLast? = some r
      ∧ (∀ i : Nat, i < rows.length →
          (load_responses (save_response (.ok rows) r))[i]? = rows[i]?)
      ∧ (load_responses (save_response (.ok rows) r)).length = rows.length + 1 := by
  refine ⟨?_, ?_, ?_⟩
  · simp [load_responses, save_response]
  · intro i hi
    simp [load_responses, save_response, List.getElem?_append_left hi]
  · simp [load_responses, save_response]

/-- Witness for C9 at concrete rows. -/
theorem save_load_round_trip_witness :
    (load_responses (save_response (.ok [sampleRowA]) sampleRowB)).getLast? = some sampleRowB
      ∧ (load_responses (save_response (.ok [sampleRowA]) sampleRowB))[0]? = [sampleRowA][0]?
      ∧ (load_responses (save_response (.ok [sampleRowA]) sampleRowB)).length
          = [sampleRowA].length + 1 :=
  ⟨(save_load_round_trip [sampleRowA] sampleRowB).1,
   (save_load_round_trip [sampleRowA] sampleRowB).2.1 0 (by decide),
   (save_load_round_trip [sampleRowA] sampleRowB).2.2⟩

/-- C10: when the store read fails, `load_responses` falls back to the empty
table and `is_email_unique` returns true for every email — even one present
among the unreadable rows — silently disabling duplicate-submitter
enforcement. -/
theorem read_failure_disables_uniqueness (rows : List Response) (email : String) :
    is_email_unique (.corrupt rows) email = true := by
  by_cases he : email = test_email <;>
    simp [is_email_unique, load_responses, he]

end SkillsMatrix
